import Mathlib

/-
Verification development for the real-time collaboration layer of the
repository (src/src/utils/collaboration.js).

The JavaScript source is shallowly embedded:
* document content (a JS string manipulated only through `slice` and `+`)
  is a `List Char`; `String.prototype.slice (0, p)` is `List.take p` and
  `slice (p)` is `List.drop p`, which share JS slice's clamping behaviour
  for indices past the end of the string;
* operation objects are the `Operation` structure; the `type` field keeps
  the JS string tag ("insert" / "delete" / "replace" / anything else), and
  fields a given operation kind leaves undefined in JS are carried as
  `[]` / `0` defaults, which no code path of the embedded functions reads;
* the module-level `Map`s of collaboration.js (documentSessions,
  userCursors, and the per-socket currentDocument slot) are functions
  `Nat → Option _` over identifiers, with `Map.set` / `Map.delete`
  embedded as the pointwise updates `fset` / `fdel`;
* the asynchronous database calls (Document.findById / document.save) are
  external to the session layer; `processPendingOperations` is embedded on
  its success path, taking the document snapshot as an argument and
  returning the updated snapshot together with its result value.
-/

namespace Collab

/-- An edit operation as built by the client payloads of
collaboration.js.  `type` is the JS string tag; `content` is the inserted
text (insert/replace); `length` / `oldLength` are the removed-character
counts (delete / replace).  JS fields that are `undefined` for a given
kind are represented by `[]` / `0`; none of the embedded functions read a
field the corresponding JS code path would find `undefined`. -/
structure Operation where
  type : String
  position : Nat
  content : List Char
  length : Nat
  oldLength : Nat
deriving DecidableEq

/-- OperationalTransform.transformOperation (collaboration.js lines 16-67):
rewrites `op2` to preserve its intent after `op1` (treated as already
committed) has been applied.  Overlap of two deletes in the final branch
returns `null`, embedded as `none`.  `Math.max(op1.position,
op2.position - op1.length)` over non-negative JS numbers coincides with
`max` over `Nat` with truncated subtraction. -/
def transformOperation (op1 op2 : Operation) : Option Operation :=
  if op1.type = "insert" ∧ op2.type = "insert" then
    if op1.position ≤ op2.position then
      some { op2 with position := op2.position + op1.content.length }
    else some op2
  else if op1.type = "delete" ∧ op2.type = "insert" then
    if op1.position < op2.position then
      some { op2 with position := max op1.position (op2.position - op1.length) }
    else some op2
  else if op1.type = "insert" ∧ op2.type = "delete" then
    if op1.position ≤ op2.position then
      some { op2 with position := op2.position + op1.content.length }
    else some op2
  else if op1.type = "delete" ∧ op2.type = "delete" then
    if op1.position < op2.position then
      some { op2 with position := max op1.position (op2.position - op1.length) }
    else if op1.position ≥ op2.position + op2.length then
      some op2
    else none
  else some op2

/-- OperationalTransform.applyOperation (collaboration.js lines 69-93):
splices the operation into the content with JS `slice`, whose clamping is
shared by `List.take` / `List.drop`.  The JS `try`/`catch` wrapper is
unreachable (`slice` and `+` never throw), so the function is total. -/
def applyOperation (content : List Char) (operation : Operation) : List Char :=
  if operation.type = "insert" then
    content.take operation.position ++ operation.content ++ content.drop operation.position
  else if operation.type = "delete" then
    content.take operation.position ++ content.drop (operation.position + operation.length)
  else if operation.type = "replace" then
    content.take operation.position ++ operation.content ++ content.drop (operation.position + operation.oldLength)
  else content

/-- An insert operation as sent by clients (no `length` / `oldLength`
fields in JS; carried as `0`). -/
def insOp (p : Nat) (c : List Char) : Operation :=
  { type := "insert", position := p, content := c, length := 0, oldLength := 0 }

/-- A delete operation as sent by clients (no `content` / `oldLength`
fields in JS; carried as `[]` / `0`). -/
def delOp (p l : Nat) : Operation :=
  { type := "delete", position := p, content := [], length := l, oldLength := 0 }

/-- Apply `op1` first, then `op2` transformed against the committed
`op1`; when the transform signals a conflict (`none`) the second
operation is dropped, as in processPendingOperations. -/
def otApply (base : List Char) (op1 op2 : Operation) : List Char :=
  match transformOperation op1 op2 with
  | some t => applyOperation (applyOperation base op1) t
  | none => applyOperation base op1

/-- The mutable document fields processPendingOperations touches:
`document.content` and `document.version` (the `updatedAt` timestamp is
real time and not modelled). -/
structure DocumentState where
  content : List Char
  version : Nat
deriving DecidableEq

/-- The `{ success, newContent, version }` value processPendingOperations
returns on its success path (collaboration.js line 260). -/
structure ProcResult where
  success : Bool
  newContent : List Char
  version : Nat
deriving DecidableEq

/-- The inner `for j` loop of processPendingOperations (lines 236-243):
transform `op` against every already-accepted operation of this pass in
order; a `null` result short-circuits (the JS loop `break`s and the
operation is skipped).  `processedOps[j]` is `undefined` for the indices
`j` beyond the accepted prefix and skipped by the `if (prevOp)` guard, so
the loop is exactly a fold over `processedOps`. -/
def transformAgainst (processedOps : List Operation) (op : Operation) : Option Operation :=
  processedOps.foldl (fun acc prevOp => acc.bind (fun o => transformOperation prevOp o)) (some op)

/-- The outer `for i` loop of processPendingOperations (lines 232-249):
accepted operations are applied to the running content and appended to
`processedOps`; conflicting ones are dropped. -/
def applyLoop (content : List Char) (processedOps : List Operation) :
    List Operation → List Char × List Operation
  | [] => (content, processedOps)
  | currentOp :: rest =>
    match transformAgainst processedOps currentOp with
    | some transformedOp =>
      applyLoop (applyOperation content transformedOp) (processedOps ++ [transformedOp]) rest
    | none => applyLoop content processedOps rest

/-- processPendingOperations (collaboration.js lines 219-261) on its
success path: `pending` is `pendingOperations.get(documentId)` (absent =
`none`, embedded `|| []` by `Option.getD`); an empty batch returns early
with no state change and no result (JS `return` of `undefined`,
embedded as `none`); otherwise the drained content is stored and
`document.version` is incremented by one, once for the whole pass.  The
database round-trips (`findById` succeeding, `save`) are external. -/
def processPendingOperations (pending : Option (List Operation)) (doc : DocumentState) :
    DocumentState × Option ProcResult :=
  let operations := pending.getD []
  if operations.isEmpty then (doc, none)
  else
    let content := (applyLoop doc.content [] operations).1
    ({ content := content, version := doc.version + 1 },
     some { success := true, newContent := content, version := doc.version + 1 })

/-! ## The WebSocket session state machine

The module-level maps of collaboration.js (lines 8-12) and the
per-socket `currentDocument` slot, together with the `join-document`,
`cursor-position`, `leave-document` and `disconnect` handlers.  Document
and user identifiers are `Nat`; the JS `Map`s are functions
`Nat → Option _`, the JS `Set` of member ids is a duplicate-free `List
Nat`.  `documentLocks` is only ever deleted by these handlers and is not
modelled; `activeConnections` only mirrors connection liveness and is
not modelled either. -/

/-- `Map.set k v` on a map embedded as a function. -/
def fset {α : Type} (m : Nat → Option α) (k : Nat) (v : α) : Nat → Option α :=
  fun q => if q = k then some v else m q

/-- `Map.delete k` on a map embedded as a function. -/
def fdel {α : Type} (m : Nat → Option α) (k : Nat) : Nat → Option α :=
  fun q => if q = k then none else m q

/-- `Set.add u`: a no-op when present, appended otherwise. -/
def saddUser (s : List Nat) (u : Nat) : List Nat :=
  if u ∈ s then s else s ++ [u]

/-- `Set.delete u`. -/
def sremUser (s : List Nat) (u : Nat) : List Nat :=
  s.filter (fun x => x != u)

/-- The server-side session state relevant to the join / leave / cursor /
disconnect handlers: `documentSessions` (documentId -> Set of userIds),
`userCursors` (documentId -> Map userId -> cursorPosition), and every
socket's `currentDocument` field gathered as userId -> documentId
(`none` embeds JS `null` / a missing socket). -/
structure ServerState where
  documentSessions : Nat → Option (List Nat)
  userCursors : Nat → Option (Nat → Option Nat)
  currentDocument : Nat → Option Nat

/-- The inbound events the modelled handlers react to.  `accessGranted`
is the outcome of the external `checkDocumentAccess` oracle consulted by
the join handler (database state is external to the session layer). -/
inductive Event where
  | joinDocument (userId documentId : Nat) (accessGranted : Bool)
  | leaveDocument (userId documentId : Nat)
  | cursorPosition (userId documentId pos : Nat)
  | disconnect (userId : Nat)

/-- The join-document handler (collaboration.js lines 280-363): on a
failed access check only an error is emitted and no state changes;
otherwise `socket.currentDocument` is set, the user is added to the
document's session set (created on demand), and an empty cursor map is
created for the document if absent.  Nothing removes the user from a
previously joined document. -/
def joinStep (s : ServerState) (u d : Nat) (granted : Bool) : ServerState :=
  if granted then
    { currentDocument := fset s.currentDocument u d
      documentSessions := fset s.documentSessions d (saddUser ((s.documentSessions d).getD []) u)
      userCursors :=
        match s.userCursors d with
        | some _ => s.userCursors
        | none => fset s.userCursors d (fun _ => none) }
  else s

/-- The session cleanup shared by the leave-document handler (lines
481-495) and the disconnect handler (lines 529-543): remove the user
from the document's session set, tearing the whole session (set, cursor
map, lock) down when it empties, then drop the user's cursor entry. -/
def sessionCleanup (s : ServerState) (u d : Nat) : ServerState :=
  let s1 :=
    match s.documentSessions d with
    | some members =>
      let members' := sremUser members u
      if members'.isEmpty then
        { s with documentSessions := fdel s.documentSessions d
                 userCursors := fdel s.userCursors d }
      else { s with documentSessions := fset s.documentSessions d members' }
    | none => s
  match s1.userCursors d with
  | some cursorMap => { s1 with userCursors := fset s1.userCursors d (fdel cursorMap u) }
  | none => s1

/-- The leave-document handler (lines 475-515): a no-op unless the named
document is the socket's `currentDocument`; otherwise the shared cleanup
runs and `currentDocument` is reset to null. -/
def leaveStep (s : ServerState) (u d : Nat) : ServerState :=
  if s.currentDocument u = some d then
    let s' := sessionCleanup s u d
    { s' with currentDocument := fdel s'.currentDocument u }
  else s

/-- The cursor-position handler (lines 449-472): guarded only by
`userCursors.has(documentId)` — when the document has a cursor map the
sender's entry is set (and a cursor-update broadcast), with no check
that the sender is joined to the document or passes any access check;
otherwise nothing changes. -/
def cursorStep (s : ServerState) (u d p : Nat) : ServerState :=
  match s.userCursors d with
  | some cursorMap => { s with userCursors := fset s.userCursors d (fset cursorMap u p) }
  | none => s

/-- The disconnect handler (lines 518-555): runs the shared cleanup for
`socket.currentDocument` when set; the socket (and with it its
`currentDocument` slot) ceases to exist. -/
def disconnectStep (s : ServerState) (u : Nat) : ServerState :=
  match s.currentDocument u with
  | some d =>
    let s' := sessionCleanup s u d
    { s' with currentDocument := fdel s'.currentDocument u }
  | none => { s with currentDocument := fdel s.currentDocument u }

/-- One inbound event dispatched to its handler. -/
def step (s : ServerState) : Event → ServerState
  | .joinDocument u d g => joinStep s u d g
  | .leaveDocument u d => leaveStep s u d
  | .cursorPosition u d p => cursorStep s u d p
  | .disconnect u => disconnectStep s u

/-- A sequence of inbound events processed in order. -/
def run (s : ServerState) (events : List Event) : ServerState :=
  events.foldl step s

/-- The server before any connection: all maps empty. -/
def initState : ServerState :=
  { documentSessions := fun _ => none
    userCursors := fun _ => none
    currentDocument := fun _ => none }

/-- `userCursors.get(d)` has an entry for user `u`. -/
def hasCursor (s : ServerState) (d u : Nat) : Bool :=
  ((s.userCursors d).bind (fun m => m u)).isSome

/-- `u` is in the session set `documentSessions.get(d)`. -/
def isMember (s : ServerState) (d u : Nat) : Bool :=
  decide (u ∈ (s.documentSessions d).getD [])

/-- The membership/presence invariant of the spec: every principal with
a cursor entry for a document is in that document's member set. -/
def CursorInv (s : ServerState) : Prop :=
  ∀ d u, hasCursor s d u = true → isMember s d u = true

/-- A cursor-position event is admissible when its sender is currently a
member of the named document; other events are unconditionally
admissible.  (This is the guard under which the spec's presence
invariant actually holds; the code itself does not enforce it.) -/
def stepOk (s : ServerState) : Event → Bool
  | .cursorPosition u d _ => isMember s d u
  | _ => true

/-- Every event of the trace is admissible in the state it is processed
in. -/
def traceOk (s : ServerState) : List Event → Bool
  | [] => true
  | e :: es => stepOk s e && traceOk (step s e) es

/-! ## Theorems for the claims -/

/-- C1 counterexample: for A = insert "X" at 0 and B = insert "Y" at 0
against base "ab", applying A then transformOperation(A,B) yields
"XYab" while applying B then transformOperation(B,A) yields "YXab" —
the two orders do not produce the same final string. -/
theorem c1_counterexample :
    otApply "ab".toList (insOp 0 ['X']) (insOp 0 ['Y']) = "XYab".toList ∧
    otApply "ab".toList (insOp 0 ['Y']) (insOp 0 ['X']) = "YXab".toList ∧
    otApply "ab".toList (insOp 0 ['X']) (insOp 0 ['Y']) ≠
      otApply "ab".toList (insOp 0 ['Y']) (insOp 0 ['X']) := by decide

/-- C1 amended: equal-position concurrent inserts diverge under the
code's transform (both sides are shifted because both comparisons use
`<=`); for inserts at distinct positions the two orders converge — for
A = insert "X" at 0 and B = insert "Y" at 1 against base "ab", both
orders yield "XaYb". -/
theorem c1_distinct_insert_convergence :
    otApply "ab".toList (insOp 0 ['X']) (insOp 1 ['Y']) = "XaYb".toList ∧
    otApply "ab".toList (insOp 1 ['Y']) (insOp 0 ['X']) = "XaYb".toList := by decide

/-- C2 counterexample: deleting length 5 at position 0 from the
3-character document "abc" is not rejected; applyOperation returns the
clamped splice "" and the content changes. -/
theorem c2_counterexample :
    applyOperation "abc".toList (delOp 0 5) = ([] : List Char) ∧
    applyOperation "abc".toList (delOp 0 5) ≠ "abc".toList := by decide

/-- C2 amended: applyOperation performs no range check and never
rejects; a delete whose position + length reaches past the end of the
content is silently clamped by the slice semantics and removes every
character from `position` onward, returning `content.take position`. -/
theorem c2_delete_clamped (content : List Char) (p l : Nat)
    (h : content.length ≤ p + l) :
    applyOperation content (delOp p l) = content.take p := by
  simp [applyOperation, delOp, List.drop_eq_nil_of_le h]

/-- C2 witness: the amended clamping law evaluated on the spec's own
example, "abc" with delete length 5 at position 0. -/
theorem c2_witness :
    "abc".toList.length ≤ 0 + 5 ∧
    applyOperation "abc".toList (delOp 0 5) = "abc".toList.take 0 :=
  ⟨by decide, c2_delete_clamped "abc".toList 0 5 (by decide)⟩

/-- C3 counterexample: a reconciliation pass draining a queue of 10
insert operations (none dropped — insert/insert transforms never
conflict) over a document at version 0 leaves the document at version
1, not the pre-pass version plus 10. -/
theorem c3_counterexample :
    (processPendingOperations (some (List.replicate 10 (insOp 0 ['x'])))
        ⟨"ab".toList, 0⟩).1.version = 1 ∧
    (1 : Nat) ≠ 0 + 10 := by decide

/-- C3 amended: `document.version` is incremented exactly once per
non-empty reconciliation pass, regardless of how many operations the
pass drains; the pass produces one result whose version equals the
pre-pass version plus 1. -/
theorem c3_version_per_pass (doc : DocumentState) (ops : List Operation)
    (h : ops ≠ []) :
    (processPendingOperations (some ops) doc).1.version = doc.version + 1 ∧
    (processPendingOperations (some ops) doc).2 =
      some { success := true,
             newContent := (processPendingOperations (some ops) doc).1.content,
             version := doc.version + 1 } := by
  cases ops with
  | nil => exact absurd rfl h
  | cons a rest => exact ⟨rfl, rfl⟩

/-- C3 witness: the amended version law evaluated on a queue of 10
inserts over a version-0 document. -/
theorem c3_witness :
    List.replicate 10 (insOp 0 ['x']) ≠ ([] : List Operation) ∧
    (processPendingOperations (some (List.replicate 10 (insOp 0 ['x'])))
        ⟨"ab".toList, 0⟩).1.version = (0 : Nat) + 1 :=
  ⟨by decide,
   (c3_version_per_pass ⟨"ab".toList, 0⟩ (List.replicate 10 (insOp 0 ['x'])) (by decide)).1⟩

/-- C4 counterexample: for the committed delete op1 = delete(0,5) and
op2 = delete(2,3) the ranges [0,5) and [2,5) overlap in the direction
the claim names (op1.position < op2.position <
op1.position + op1.length), yet transformOperation returns the shifted
operation delete(0,3), not None. -/
theorem c4_counterexample :
    ((delOp 0 5).position < (delOp 2 3).position ∧
      (delOp 2 3).position < (delOp 0 5).position + (delOp 0 5).length) ∧
    transformOperation (delOp 0 5) (delOp 2 3) = some (delOp 0 3) ∧
    transformOperation (delOp 0 5) (delOp 2 3) ≠ none := by decide

/-- C4 amended: for two delete operations, transformOperation returns
None exactly when the committed delete op1 starts inside op2's range
(op2.position ≤ op1.position < op2.position + op2.length); an
overlapping pair with op1.position < op2.position is shifted, not
dropped. -/
theorem c4_delete_conflict_iff (op1 op2 : Operation)
    (h1 : op1.type = "delete") (h2 : op2.type = "delete") :
    transformOperation op1 op2 = none ↔
      op2.position ≤ op1.position ∧ op1.position < op2.position + op2.length := by
  have hne : ¬(("delete" : String) = "insert") := by decide
  simp only [transformOperation, h1, h2, hne, false_and, and_false, and_self,
    if_false, if_true, ite_false, ite_true]
  split_ifs with ha hb <;> simp <;> omega

/-- C4 witness: the amended conflict characterisation evaluated at
op1 = delete(1,2), op2 = delete(0,5), whose transform is None. -/
theorem c4_witness :
    transformOperation (delOp 1 2) (delOp 0 5) = none ↔
      (delOp 0 5).position ≤ (delOp 1 2).position ∧
      (delOp 1 2).position < (delOp 0 5).position + (delOp 0 5).length :=
  c4_delete_conflict_iff (delOp 1 2) (delOp 0 5) rfl rfl

/-- C8 (confirmed): with base content "hello" and pending queue
[A = insert " world" at 5, B = insert ">> " at 0] in arrival order, the
reconciliation pass transforms B against the committed A with no shift
(5 ≤ 0 fails), applies A then B, and produces content ">> hello world"
at version 1. -/
theorem c8_reconciliation_scenario :
    transformOperation (insOp 5 " world".toList) (insOp 0 ">> ".toList) =
      some (insOp 0 ">> ".toList) ∧
    processPendingOperations (some [insOp 5 " world".toList, insOp 0 ">> ".toList])
        ⟨"hello".toList, 0⟩ =
      (⟨">> hello world".toList, 1⟩, some ⟨true, ">> hello world".toList, 1⟩) := by decide

/-- C9 (confirmed): whenever transformOperation returns a non-None
operation, that operation differs from op2 at most in its position —
the type, content, length and oldLength fields are those of op2. -/
theorem c9_transform_frame (op1 op2 op' : Operation)
    (h : transformOperation op1 op2 = some op') :
    op'.type = op2.type ∧ op'.content = op2.content ∧
    op'.length = op2.length ∧ op'.oldLength = op2.oldLength := by
  unfold transformOperation at h
  repeat' split at h
  all_goals simp_all
  all_goals subst h
  all_goals simp

/-- C9 witness: the frame property evaluated on two inserts at
position 0, where the transform shifts the position to 1. -/
theorem c9_witness :
    transformOperation (insOp 0 ['X']) (insOp 0 ['Y']) = some (insOp 1 ['Y']) ∧
    ((insOp 1 ['Y']).type = (insOp 0 ['Y']).type ∧
      (insOp 1 ['Y']).content = (insOp 0 ['Y']).content ∧
      (insOp 1 ['Y']).length = (insOp 0 ['Y']).length ∧
      (insOp 1 ['Y']).oldLength = (insOp 0 ['Y']).oldLength) :=
  ⟨by decide, c9_transform_frame (insOp 0 ['X']) (insOp 0 ['Y']) (insOp 1 ['Y']) (by decide)⟩

/-- C10 (confirmed): a reconciliation pass over an absent or empty
pending queue changes nothing — the document snapshot is returned
untouched (content and version unchanged) and no result is produced. -/
theorem c10_empty_pass_noop (pending : Option (List Operation)) (doc : DocumentState)
    (h : pending = none ∨ pending = some []) :
    processPendingOperations pending doc = (doc, none) := by
  rcases h with rfl | rfl <;> rfl

/-- C10 witness: the empty-pass law evaluated at an absent queue and a
version-3 document. -/
theorem c10_witness :
    processPendingOperations none ⟨"ab".toList, 3⟩ = (⟨"ab".toList, 3⟩, none) :=
  c10_empty_pass_noop none ⟨"ab".toList, 3⟩ (Or.inl rfl)

/-! ### Helper lemmas about the session state machine -/

theorem fset_apply {α : Type} (m : Nat → Option α) (k v q) :
    fset m k v q = if q = k then some v else m q := rfl

theorem fdel_apply {α : Type} (m : Nat → Option α) (k q) :
    fdel m k q = if q = k then none else m q := rfl

theorem mem_saddUser {l : List Nat} {u x : Nat} :
    x ∈ saddUser l u ↔ x ∈ l ∨ x = u := by
  unfold saddUser
  split <;> rename_i hu
  · exact ⟨Or.inl, fun hx => hx.elim id (fun e => e ▸ hu)⟩
  · simp [List.mem_append]

theorem mem_sremUser {l : List Nat} {u x : Nat} :
    x ∈ sremUser l u ↔ x ∈ l ∧ x ≠ u := by
  simp [sremUser, List.mem_filter]

/-- The join handler never adds a cursor entry: a cursor present after a
join was present before it (a fresh cursor map is created empty). -/
theorem hasCursor_of_joinStep {s : ServerState} {u d : Nat} {g : Bool} {d' u' : Nat}
    (hc : hasCursor (joinStep s u d g) d' u' = true) : hasCursor s d' u' = true := by
  cases g with
  | false => simpa [joinStep] using hc
  | true =>
    by_cases hdd : d' = d
    · subst hdd
      cases huc : s.userCursors d' with
      | none => simp [joinStep, hasCursor, fset, huc] at hc
      | some cmap => simpa [joinStep, hasCursor, huc] using hc
    · cases huc : s.userCursors d with
      | none => simpa [joinStep, hasCursor, fset, huc, hdd] using hc
      | some cmap => simpa [joinStep, hasCursor, huc] using hc

/-- The join handler never removes a member. -/
theorem isMember_joinStep_of {s : ServerState} {u d : Nat} {g : Bool} {d' u' : Nat}
    (hm : isMember s d' u' = true) : isMember (joinStep s u d g) d' u' = true := by
  cases g with
  | false => simpa [joinStep] using hm
  | true =>
    by_cases hdd : d' = d
    · subst hdd
      have hm' : u' ∈ (s.documentSessions d').getD [] := by simpa [isMember] using hm
      have hmem : u' ∈ saddUser ((s.documentSessions d').getD []) u :=
        mem_saddUser.mpr (Or.inl hm')
      simpa [joinStep, isMember, fset] using hmem
    · simpa [joinStep, isMember, fset, hdd] using hm

theorem joinStep_inv (s : ServerState) (u d : Nat) (g : Bool)
    (h : CursorInv s) : CursorInv (joinStep s u d g) :=
  fun d' u' hc => isMember_joinStep_of (h d' u' (hasCursor_of_joinStep hc))

theorem cursorStep_inv (s : ServerState) (u d p : Nat)
    (h : CursorInv s) (hg : isMember s d u = true) : CursorInv (cursorStep s u d p) := by
  intro d' u' hc
  cases huc : s.userCursors d with
  | none =>
    simp only [cursorStep, huc] at hc ⊢
    exact h d' u' hc
  | some cmap =>
    simp only [cursorStep, huc] at hc ⊢
    by_cases hdd : d' = d
    · subst hdd
      by_cases huu : u' = u
      · subst huu
        exact hg
      · exact h d' u' (by simpa [hasCursor, fset, huc, huu] using hc)
    · exact h d' u' (by simpa [hasCursor, fset, hdd] using hc)

theorem sessionCleanup_inv (s : ServerState) (u d : Nat) (h : CursorInv s) :
    CursorInv (sessionCleanup s u d) := by
  intro d' u' hc
  cases hds : s.documentSessions d with
  | none =>
    simp only [sessionCleanup, hds] at hc ⊢
    cases huc : s.userCursors d with
    | none =>
      simp only [huc] at hc ⊢
      exact h d' u' hc
    | some cmap =>
      simp only [huc] at hc ⊢
      by_cases hdd : d' = d
      · subst hdd
        by_cases huu : u' = u
        · exfalso
          simp [hasCursor, fset, fdel, huu] at hc
        · exfalso
          have hcs : hasCursor s d' u' = true := by
            simpa [hasCursor, fset, fdel, huc, huu] using hc
          have hm := h d' u' hcs
          simp [isMember, hds] at hm
      · exact h d' u' (by simpa [hasCursor, fset, hdd] using hc)
  | some members =>
    simp only [sessionCleanup, hds] at hc ⊢
    by_cases hemp : (sremUser members u).isEmpty
    · simp only [hemp, if_true, ite_true, fdel, if_pos rfl] at hc ⊢
      by_cases hdd : d' = d
      · exfalso
        subst hdd
        simp [hasCursor, fdel] at hc
      · have hcs : hasCursor s d' u' = true := by
          simpa [hasCursor, fdel, hdd] using hc
        simpa [isMember, fdel, hdd] using h d' u' hcs
    · simp only [hemp, if_false, ite_false, Bool.false_eq_true] at hc ⊢
      cases huc : s.userCursors d with
      | none =>
        simp only [huc] at hc ⊢
        by_cases hdd : d' = d
        · exfalso
          subst hdd
          simp [hasCursor, huc] at hc
        · have hcs : hasCursor s d' u' = true := hc
          simpa [isMember, fset, hdd] using h d' u' hcs
      | some cmap =>
        simp only [huc] at hc ⊢
        by_cases hdd : d' = d
        · subst hdd
          by_cases huu : u' = u
          · exfalso
            simp [hasCursor, fset, fdel, huu] at hc
          · have hcs : hasCursor s d' u' = true := by
              simpa [hasCursor, fset, fdel, huc, huu] using hc
            have hm : u' ∈ members := by
              simpa [isMember, hds] using h d' u' hcs
            simp only [isMember, fset, if_pos rfl, Option.getD_some, decide_eq_true_eq]
            exact mem_sremUser.mpr ⟨hm, huu⟩
        · have hcs : hasCursor s d' u' = true := by
            simpa [hasCursor, fset, hdd] using hc
          simpa [isMember, fset, hdd] using h d' u' hcs

theorem leaveStep_inv (s : ServerState) (u d : Nat) (h : CursorInv s) :
    CursorInv (leaveStep s u d) := by
  unfold leaveStep
  split
  · exact sessionCleanup_inv s u d h
  · exact h

theorem disconnectStep_inv (s : ServerState) (u : Nat) (h : CursorInv s) :
    CursorInv (disconnectStep s u) := by
  unfold disconnectStep
  split <;> rename_i hcur
  · exact sessionCleanup_inv s u _ h
  · exact h

theorem step_inv (s : ServerState) (e : Event) (h : CursorInv s)
    (hok : stepOk s e = true) : CursorInv (step s e) := by
  cases e with
  | joinDocument u d g => exact joinStep_inv s u d g h
  | leaveDocument u d => exact leaveStep_inv s u d h
  | cursorPosition u d p => exact cursorStep_inv s u d p h hok
  | disconnect u => exact disconnectStep_inv s u h

/-- C5 counterexample: user 1 joins document 1, then user 2 — who never
joined document 1 — sends cursor-position for it; the cursor map for
document 1 exists, so the handler records a cursor entry for user 2,
who is not in the member set: the subset invariant is violated. -/
theorem c5_counterexample :
    hasCursor (run initState [.joinDocument 1 1 true, .cursorPosition 2 1 7]) 1 2 = true ∧
    isMember (run initState [.joinDocument 1 1 true, .cursorPosition 2 1 7]) 1 2 = false := by
  decide

/-- C5 amended: the cursors-are-members invariant is preserved by every
join-document, leave-document and disconnect event, and by
cursor-position events whose sender is currently a member of the named
document; under that admissibility guard it holds after any event
sequence.  (An unguarded cursor-position from a non-member violates it,
because the handler checks only that the document's cursor map
exists.) -/
theorem c5_cursor_subset_inv (events : List Event) : ∀ (s : ServerState),
    CursorInv s → traceOk s events = true → CursorInv (run s events) := by
  induction events with
  | nil => exact fun s h _ => h
  | cons e es ih =>
    intro s h hok
    rw [traceOk, Bool.and_eq_true] at hok
    exact ih (step s e) (step_inv s e h hok.1) hok.2

/-- C5 witness: the guarded invariant evaluated on the trace where user
1 joins document 1, moves their cursor as a member, and leaves. -/
theorem c5_witness :
    CursorInv initState ∧
    traceOk initState [.joinDocument 1 1 true, .cursorPosition 1 1 3, .leaveDocument 1 1] = true ∧
    CursorInv (run initState [.joinDocument 1 1 true, .cursorPosition 1 1 3, .leaveDocument 1 1]) := by
  refine ⟨?_, by decide, ?_⟩
  · intro d u hc
    simp [hasCursor, initState] at hc
  · refine c5_cursor_subset_inv _ initState ?_ (by decide)
    intro d u hc
    simp [hasCursor, initState] at hc

/-- C6 counterexample: connection of user 1 joins document 10, places a
cursor there, then issues join-document for document 20; afterwards the
user is still a member of document 10 with their cursor entry intact
(and also a member of document 20) — the claimed implicit leave of the
previous document does not happen. -/
theorem c6_counterexample :
    isMember (run initState
      [.joinDocument 1 10 true, .cursorPosition 1 10 4, .joinDocument 1 20 true]) 10 1 = true ∧
    hasCursor (run initState
      [.joinDocument 1 10 true, .cursorPosition 1 10 4, .joinDocument 1 20 true]) 10 1 = true ∧
    isMember (run initState
      [.joinDocument 1 10 true, .cursorPosition 1 10 4, .joinDocument 1 20 true]) 20 1 = true := by
  decide

/-- C6 amended: a join-document for a different document D2 by a
connection currently joined to D1 does not leave D1: it overwrites
`socket.currentDocument` with D2 and adds membership in D2, while the
connection's D1 membership and D1 cursor entry are untouched, so the
connection is a member of both documents afterwards. -/
theorem c6_join_keeps_previous (s : ServerState) (u d1 d2 : Nat)
    (_hcur : s.currentDocument u = some d1) (hne : d1 ≠ d2) :
    (joinStep s u d2 true).currentDocument u = some d2 ∧
    isMember (joinStep s u d2 true) d2 u = true ∧
    isMember (joinStep s u d2 true) d1 u = isMember s d1 u ∧
    hasCursor (joinStep s u d2 true) d1 u = hasCursor s d1 u := by
  refine ⟨by simp [joinStep, fset], ?_, ?_, ?_⟩
  · have hmem : u ∈ saddUser ((s.documentSessions d2).getD []) u :=
      mem_saddUser.mpr (Or.inr rfl)
    simpa [joinStep, isMember, fset] using hmem
  · simp [joinStep, isMember, fset, hne]
  · cases huc : s.userCursors d2 with
    | some cmap => simp [joinStep, hasCursor, huc]
    | none => simp [joinStep, hasCursor, fset, huc, hne]

/-- C6 witness: the no-implicit-leave law evaluated on a state where
user 1 is joined to document 10 (having also placed a cursor there) and
then joins document 20. -/
theorem c6_witness :
    (run initState [.joinDocument 1 10 true, .cursorPosition 1 10 4]).currentDocument 1 =
      some 10 ∧
    (10 : Nat) ≠ 20 ∧
    ((joinStep (run initState [.joinDocument 1 10 true, .cursorPosition 1 10 4]) 1 20
        true).currentDocument 1 = some 20 ∧
      isMember (joinStep (run initState [.joinDocument 1 10 true, .cursorPosition 1 10 4]) 1 20
        true) 20 1 = true ∧
      isMember (joinStep (run initState [.joinDocument 1 10 true, .cursorPosition 1 10 4]) 1 20
          true) 10 1 =
        isMember (run initState [.joinDocument 1 10 true, .cursorPosition 1 10 4]) 10 1 ∧
      hasCursor (joinStep (run initState [.joinDocument 1 10 true, .cursorPosition 1 10 4]) 1 20
          true) 10 1 =
        hasCursor (run initState [.joinDocument 1 10 true, .cursorPosition 1 10 4]) 10 1) :=
  ⟨by decide, by decide,
   c6_join_keeps_previous (run initState [.joinDocument 1 10 true, .cursorPosition 1 10 4])
     1 10 20 (by decide) (by decide)⟩

/-- C7 counterexample: user 5 joins document 3; user 4, whose
connection is not joined to document 3 (its currentDocument is unset),
sends cursor-position for it, and the cursor state changes — a cursor
entry for user 4 appears — contradicting the claim that such an event
leaves all cursor state unchanged. -/
theorem c7_counterexample :
    (run initState [.joinDocument 5 3 true]).currentDocument 4 = none ∧
    hasCursor (run initState [.joinDocument 5 3 true]) 3 4 = false ∧
    hasCursor (run initState [.joinDocument 5 3 true, .cursorPosition 4 3 9]) 3 4 = true := by
  decide

/-- C7 amended: the cursor-position handler checks neither membership
nor any permission tier; it mutates cursor state (and broadcasts)
exactly when the named document's cursor map exists — whoever the
sender is — and leaves the state unchanged only when the cursor map is
absent. -/
theorem c7_cursor_no_access_check (s : ServerState) (u d p : Nat) :
    (s.userCursors d = none → cursorStep s u d p = s) ∧
    (∀ cmap, s.userCursors d = some cmap →
      (cursorStep s u d p).userCursors d = some (fset cmap u p)) := by
  constructor
  · intro huc
    simp [cursorStep, huc]
  · intro cmap huc
    simp [cursorStep, huc, fset]

/-- C7 witness: the characterisation evaluated at the empty server
state (no cursor map, event is a no-op) for user 1, document 2. -/
theorem c7_witness : cursorStep initState 1 2 3 = initState :=
  (c7_cursor_no_access_check initState 1 2 3).1 rfl

end Collab
